import Mathlib

/-!
Verification of the RP2350 Rust blink driver core (src/src/blink.rs).

The Rust module defines a pure, hardware-agnostic LED blink state machine:
an enum LedState, a struct BlinkController with fields state, delay_ms and
toggle_count (both counters are u64), constructors new/default and
with_delay, a toggle operation, read accessors, a delay mutator set_delay,
and free functions clamp_delay and state_to_level.

The three configuration constants BLINK_DELAY_MS, MIN_BLINK_DELAY_MS and
MAX_BLINK_DELAY_MS are imported from the crate config module, whose concrete
values are not part of the verified sources; the embedding is therefore
parameterized by a Config record holding them, and theorems carry the
configuration-sanity hypotheses exactly where the claims state them.

Machine integers: u64 values are embedded as Nat; the one place where
overflow matters (the toggle counter increment) takes an explicit modulus
2 ^ 64, matching wrapping u64 addition. Rust Ord::clamp asserts
min ≤ max and panics otherwise; that partiality is embedded as Option.
-/

/-- Modulus of the u64 machine integer type. -/
def U64_MOD : Nat := 2 ^ 64

/-- LED state enumeration from blink.rs: On (high) and Off (low). -/
inductive LedState
  | On
  | Off
  deriving DecidableEq, Repr, BEq

/-- The three configuration constants consumed from the crate config
module. Their concrete values are outside the verified sources, so the
development is parameterized over them. -/
structure Config where
  BLINK_DELAY_MS : Nat
  MIN_BLINK_DELAY_MS : Nat
  MAX_BLINK_DELAY_MS : Nat
  deriving DecidableEq, Repr

/-- Rust core Ord::clamp on u64: asserts lo ≤ hi (a failed assertion,
i.e. a panic, is embedded as none), then returns lo if the value is below
lo, hi if above hi, and the value itself otherwise. -/
def u64Clamp (x lo hi : Nat) : Option Nat :=
  if lo ≤ hi then
    some (if x < lo then lo else if hi < x then hi else x)
  else
    none

/-- blink.rs clamp_delay: delay_ms.clamp(MIN_BLINK_DELAY_MS, MAX_BLINK_DELAY_MS). -/
def clamp_delay (cfg : Config) (delay_ms : Nat) : Option Nat :=
  u64Clamp delay_ms cfg.MIN_BLINK_DELAY_MS cfg.MAX_BLINK_DELAY_MS

/-- blink.rs BlinkController: current LED state, blink delay in
milliseconds, and number of state transitions. -/
structure BlinkController where
  state : LedState
  delay_ms : Nat
  toggle_count : Nat
  deriving DecidableEq, Repr

namespace BlinkController

/-- impl Default for BlinkController: LED off, default configured delay,
zero toggles. -/
def default (cfg : Config) : BlinkController :=
  { state := LedState.Off, delay_ms := cfg.BLINK_DELAY_MS, toggle_count := 0 }

/-- BlinkController::new, defined via the Default implementation. -/
def new (cfg : Config) : BlinkController :=
  default cfg

/-- BlinkController::with_delay: LED off, requested delay passed through
clamp_delay, zero toggles. Propagates the clamp assertion failure. -/
def with_delay (cfg : Config) (delay_ms : Nat) : Option BlinkController :=
  (clamp_delay cfg delay_ms).map fun cd =>
    { state := LedState.Off, delay_ms := cd, toggle_count := 0 }

/-- BlinkController::toggle: flips state, increments toggle_count
(wrapping u64 addition), and returns the new state. The Rust method
mutates through a mutable reference; here it returns the result value
paired with the updated controller. -/
def toggle (c : BlinkController) : LedState × BlinkController :=
  let s := match c.state with
    | LedState.On => LedState.Off
    | LedState.Off => LedState.On
  (s, { state := s, delay_ms := c.delay_ms,
        toggle_count := (c.toggle_count + 1) % U64_MOD })

/-- BlinkController::is_on: self.state == LedState::On. -/
def is_on (c : BlinkController) : Bool :=
  c.state == LedState.On

/-- BlinkController::is_off: self.state == LedState::Off. -/
def is_off (c : BlinkController) : Bool :=
  c.state == LedState.Off

/-- BlinkController::set_delay: replaces delay_ms by clamp_delay of the
argument, leaving the other fields as they were. Propagates the clamp
assertion failure. -/
def set_delay (cfg : Config) (c : BlinkController) (delay_ms : Nat) :
    Option BlinkController :=
  (clamp_delay cfg delay_ms).map fun nd => { c with delay_ms := nd }

end BlinkController

/-- blink.rs state_to_level: On maps to true (high), Off maps to false
(low). -/
def state_to_level (state : LedState) : Bool :=
  match state with
  | LedState.On => true
  | LedState.Off => false

/-- The flipped LED state, as computed inside BlinkController::toggle. -/
def flipLed : LedState → LedState
  | LedState.On => LedState.Off
  | LedState.Off => LedState.On

/-- One mutating API call on a controller: toggle or set_delay with an
arbitrary u64 argument. -/
inductive Op
  | toggle
  | set_delay (d : Nat)
  deriving DecidableEq, Repr

/-- Apply one mutating API call. -/
def applyOp (cfg : Config) (c : BlinkController) : Op → Option BlinkController
  | Op.toggle => some (BlinkController.toggle c).2
  | Op.set_delay d => BlinkController.set_delay cfg c d

/-- Run a finite sequence of mutating API calls. -/
def runOps (cfg : Config) : BlinkController → List Op → Option BlinkController
  | c, [] => some c
  | c, op :: ops => (applyOp cfg c op).bind fun c2 => runOps cfg c2 ops

/-- Iterate BlinkController::toggle n times, keeping the controller. -/
def toggleN : Nat → BlinkController → BlinkController
  | 0, c => c
  | n + 1, c => (BlinkController.toggle (toggleN n c)).2

/-- A sample sane configuration used to instantiate theorems with
hypotheses at concrete values. -/
def cfg0 : Config :=
  { BLINK_DELAY_MS := 500, MIN_BLINK_DELAY_MS := 10, MAX_BLINK_DELAY_MS := 10000 }

/-- The delay field lies within the configured bounds. -/
def delayInRange (cfg : Config) (c : BlinkController) : Prop :=
  cfg.MIN_BLINK_DELAY_MS ≤ c.delay_ms ∧ c.delay_ms ≤ cfg.MAX_BLINK_DELAY_MS

/-- Successful clamp outputs are within bounds, and clamping succeeds
whenever the bounds are ordered. -/
lemma clamp_delay_some (cfg : Config) (d : Nat)
    (h : cfg.MIN_BLINK_DELAY_MS ≤ cfg.MAX_BLINK_DELAY_MS) :
    clamp_delay cfg d =
      some (if d < cfg.MIN_BLINK_DELAY_MS then cfg.MIN_BLINK_DELAY_MS
        else if cfg.MAX_BLINK_DELAY_MS < d then cfg.MAX_BLINK_DELAY_MS else d) := by
  unfold clamp_delay u64Clamp
  rw [if_pos h]

lemma clamp_delay_mem (cfg : Config) (d r : Nat)
    (hr : clamp_delay cfg d = some r) :
    cfg.MIN_BLINK_DELAY_MS ≤ r ∧ r ≤ cfg.MAX_BLINK_DELAY_MS := by
  unfold clamp_delay u64Clamp at hr
  by_cases h : cfg.MIN_BLINK_DELAY_MS ≤ cfg.MAX_BLINK_DELAY_MS
  · rw [if_pos h] at hr
    injection hr with hr
    subst hr
    split_ifs <;> omega
  · rw [if_neg h] at hr
    exact absurd hr (by simp)

/-- Claim C1: for every u64 input d, when the configuration satisfies
MIN_BLINK_DELAY_MS ≤ MAX_BLINK_DELAY_MS, clamp_delay succeeds and returns
MIN_BLINK_DELAY_MS when d is below it, MAX_BLINK_DELAY_MS when d is above
it, and d itself otherwise; the result always lies within the bounds. -/
theorem clamp_delay_spec (cfg : Config) (d : Nat)
    (h : cfg.MIN_BLINK_DELAY_MS ≤ cfg.MAX_BLINK_DELAY_MS) :
    ∃ r, clamp_delay cfg d = some r ∧
      (d < cfg.MIN_BLINK_DELAY_MS → r = cfg.MIN_BLINK_DELAY_MS) ∧
      (cfg.MAX_BLINK_DELAY_MS < d → r = cfg.MAX_BLINK_DELAY_MS) ∧
      (cfg.MIN_BLINK_DELAY_MS ≤ d → d ≤ cfg.MAX_BLINK_DELAY_MS → r = d) ∧
      cfg.MIN_BLINK_DELAY_MS ≤ r ∧ r ≤ cfg.MAX_BLINK_DELAY_MS := by
  refine ⟨_, clamp_delay_some cfg d h, ?_, ?_, ?_, ?_, ?_⟩ <;>
    split_ifs <;> omega

/-- Witness for C1 at the sample configuration and input 3. -/
theorem clamp_delay_spec_witness :
    ∃ r, clamp_delay cfg0 3 = some r ∧
      (3 < cfg0.MIN_BLINK_DELAY_MS → r = cfg0.MIN_BLINK_DELAY_MS) ∧
      (cfg0.MAX_BLINK_DELAY_MS < 3 → r = cfg0.MAX_BLINK_DELAY_MS) ∧
      (cfg0.MIN_BLINK_DELAY_MS ≤ 3 → 3 ≤ cfg0.MAX_BLINK_DELAY_MS → r = 3) ∧
      cfg0.MIN_BLINK_DELAY_MS ≤ r ∧ r ≤ cfg0.MAX_BLINK_DELAY_MS :=
  clamp_delay_spec cfg0 3 (by decide)

/-- Claim C9: state_to_level maps On to true and Off to false. It is a
plain total function of the state, hence pure and effect-free. -/
theorem state_to_level_spec :
    state_to_level LedState.On = true ∧ state_to_level LedState.Off = false :=
  ⟨rfl, rfl⟩

/-- Claim C8: is_on always returns the boolean negation of is_off, so
exactly one of the two predicates holds in every controller state. -/
theorem is_on_not_is_off (c : BlinkController) :
    BlinkController.is_on c = ! BlinkController.is_off c := by
  cases c with
  | mk s d t => cases s <;> rfl

/-- Claim C3: toggle flips the state (On becomes Off, Off becomes On),
performs the wrapping u64 increment of toggle_count by one, returns the
new post-flip state, and leaves delay_ms unchanged. As a total function
it never fails. -/
theorem toggle_spec (c : BlinkController) :
    (BlinkController.toggle c).1 = flipLed c.state ∧
    (BlinkController.toggle c).2.state = flipLed c.state ∧
    (BlinkController.toggle c).2.toggle_count = (c.toggle_count + 1) % U64_MOD ∧
    (BlinkController.toggle c).2.delay_ms = c.delay_ms := by
  cases c with
  | mk s d t => cases s <;> simp [BlinkController.toggle, flipLed]

/-- Claim C5: toggling twice restores the original LED state while the
toggle counter advances by exactly two in wrapping u64 arithmetic. -/
theorem toggle_involution (c : BlinkController) :
    (BlinkController.toggle (BlinkController.toggle c).2).2.state = c.state ∧
    (BlinkController.toggle (BlinkController.toggle c).2).2.toggle_count
      = (c.toggle_count + 2) % U64_MOD := by
  cases c with
  | mk s d t =>
    constructor
    · cases s <;> rfl
    · cases s <;> simp [BlinkController.toggle, U64_MOD]

/-- Claim C4: new (equal to default) yields state Off, the default
configured delay and a zero toggle counter; with_delay, under the ordered
bounds the spec assumes of the configuration, succeeds for every u64
input and yields state Off, the clamped delay and a zero counter. -/
theorem constructors_spec (cfg : Config) (d : Nat)
    (h : cfg.MIN_BLINK_DELAY_MS ≤ cfg.MAX_BLINK_DELAY_MS) :
    (BlinkController.new cfg).state = LedState.Off ∧
    (BlinkController.new cfg).delay_ms = cfg.BLINK_DELAY_MS ∧
    (BlinkController.new cfg).toggle_count = 0 ∧
    BlinkController.new cfg = BlinkController.default cfg ∧
    ∃ c, BlinkController.with_delay cfg d = some c ∧
      c.state = LedState.Off ∧ c.toggle_count = 0 ∧
      clamp_delay cfg d = some c.delay_ms := by
  refine ⟨rfl, rfl, rfl, rfl, ?_⟩
  simp only [BlinkController.with_delay, clamp_delay_some cfg d h,
    Option.map_some']
  exact ⟨_, rfl, rfl, rfl, rfl⟩

/-- Witness for C4 at the sample configuration and input 1000. -/
theorem constructors_spec_witness :
    (BlinkController.new cfg0).state = LedState.Off ∧
    (BlinkController.new cfg0).delay_ms = cfg0.BLINK_DELAY_MS ∧
    (BlinkController.new cfg0).toggle_count = 0 ∧
    BlinkController.new cfg0 = BlinkController.default cfg0 ∧
    ∃ c, BlinkController.with_delay cfg0 1000 = some c ∧
      c.state = LedState.Off ∧ c.toggle_count = 0 ∧
      clamp_delay cfg0 1000 = some c.delay_ms :=
  constructors_spec cfg0 1000 (by decide)

/-- applyOp preserves the delay bounds of a controller. -/
lemma applyOp_delayInRange (cfg : Config) (c c' : BlinkController) (op : Op)
    (hc : delayInRange cfg c) (happ : applyOp cfg c op = some c') :
    delayInRange cfg c' := by
  cases op with
  | toggle =>
    simp only [applyOp, Option.some.injEq] at happ
    subst happ
    exact hc
  | set_delay d =>
    simp only [applyOp, BlinkController.set_delay, Option.map_eq_some'] at happ
    obtain ⟨nd, hnd, hc'⟩ := happ
    subst hc'
    exact clamp_delay_mem cfg d nd hnd

/-- runOps preserves the delay bounds of a controller. -/
lemma runOps_delayInRange (cfg : Config) (ops : List Op) :
    ∀ c c' : BlinkController, delayInRange cfg c →
      runOps cfg c ops = some c' → delayInRange cfg c' := by
  induction ops with
  | nil =>
    intro c c' hc hrun
    simp only [runOps, Option.some.injEq] at hrun
    subst hrun
    exact hc
  | cons op ops ih =>
    intro c c' hc hrun
    simp only [runOps, Option.bind_eq_some] at hrun
    obtain ⟨c2, happ, hrun⟩ := hrun
    exact ih c2 c' (applyOp_delayInRange cfg c c2 op hc happ) hrun

/-- Claim C2: assuming the configuration satisfies
MIN_BLINK_DELAY_MS ≤ BLINK_DELAY_MS ≤ MAX_BLINK_DELAY_MS, every controller
reachable from new (or default) or with_delay by any finite sequence of
toggle and set_delay calls with arbitrary u64 arguments keeps its delay_ms
within the configured bounds. -/
theorem reachable_delay_in_range (cfg : Config)
    (h1 : cfg.MIN_BLINK_DELAY_MS ≤ cfg.BLINK_DELAY_MS)
    (h2 : cfg.BLINK_DELAY_MS ≤ cfg.MAX_BLINK_DELAY_MS)
    (c0 : BlinkController)
    (hinit : c0 = BlinkController.new cfg ∨
      ∃ d, BlinkController.with_delay cfg d = some c0)
    (ops : List Op) (c' : BlinkController)
    (hrun : runOps cfg c0 ops = some c') :
    cfg.MIN_BLINK_DELAY_MS ≤ c'.delay_ms ∧
      c'.delay_ms ≤ cfg.MAX_BLINK_DELAY_MS := by
  have hc0 : delayInRange cfg c0 := by
    rcases hinit with h | ⟨d, hd⟩
    · subst h
      exact ⟨h1, h2⟩
    · simp only [BlinkController.with_delay, Option.map_eq_some'] at hd
      obtain ⟨nd, hnd, hc0⟩ := hd
      have := clamp_delay_mem cfg d nd hnd
      subst hc0
      exact this
  exact runOps_delayInRange cfg ops c0 c' hc0 hrun

/-- Witness for C2: start from new at the sample configuration, toggle,
then request the out-of-range delay 1; the resulting delay equals the
minimum bound and is within bounds. -/
theorem reachable_delay_in_range_witness :
    cfg0.MIN_BLINK_DELAY_MS ≤
      (⟨LedState.On, 10, 1⟩ : BlinkController).delay_ms ∧
    (⟨LedState.On, 10, 1⟩ : BlinkController).delay_ms ≤
      cfg0.MAX_BLINK_DELAY_MS :=
  reachable_delay_in_range cfg0 (by decide) (by decide)
    (BlinkController.new cfg0) (Or.inl rfl)
    [Op.toggle, Op.set_delay 1] ⟨LedState.On, 10, 1⟩ (by decide)

/-- Iterated toggling advances the counter by n in wrapping u64
arithmetic. -/
lemma toggleN_toggle_count (n : Nat) (c : BlinkController)
    (h : c.toggle_count < U64_MOD) :
    (toggleN n c).toggle_count = (c.toggle_count + n) % U64_MOD := by
  induction n with
  | zero => simp [toggleN, Nat.mod_eq_of_lt h]
  | succ n ih =>
    simp only [toggleN, BlinkController.toggle]
    rw [ih]
    simp only [U64_MOD]
    omega

/-- Claim C6 (amended): starting from a freshly constructed controller,
after N calls to toggle the counter reads N modulo 2 ^ 64; in particular
it reads exactly N for every N below 2 ^ 64, but the u64 counter wraps
once N reaches 2 ^ 64. -/
theorem toggle_count_after_n (cfg : Config) (n : Nat) :
    (toggleN n (BlinkController.new cfg)).toggle_count = n % U64_MOD := by
  have h := toggleN_toggle_count n (BlinkController.new cfg)
    (by norm_num [BlinkController.new, BlinkController.default, U64_MOD])
  simpa [BlinkController.new, BlinkController.default] using h

/-- Counterexample to claim C6 as stated over every natural number N:
after N = 2 ^ 64 calls to toggle from a fresh controller, the u64 counter
has wrapped to 0 and does not equal N. -/
theorem toggle_count_after_n_counterexample :
    ¬ (toggleN (2 ^ 64) (BlinkController.new cfg0)).toggle_count = 2 ^ 64 := by
  have h := toggleN_toggle_count (2 ^ 64) (BlinkController.new cfg0)
    (by norm_num [BlinkController.new, BlinkController.default, U64_MOD])
  rw [h]
  norm_num [BlinkController.new, BlinkController.default, U64_MOD]

/-- Claim C7: across every mutating operation the u64 toggle counter
either stays unchanged (set_delay) or is incremented by one in wrapping
u64 arithmetic (toggle); hence it never decreases except at the single
wrap from the u64 maximum 2 ^ 64 - 1 to 0, and no other overflow handling
applies. -/
theorem toggle_count_monotone_wrap (cfg : Config) (c c' : BlinkController)
    (op : Op) (h : c.toggle_count < U64_MOD)
    (happ : applyOp cfg c op = some c') :
    (c.toggle_count ≠ U64_MOD - 1 → c.toggle_count ≤ c'.toggle_count) ∧
    (c'.toggle_count = c.toggle_count ∨
      c'.toggle_count =
        if c.toggle_count = U64_MOD - 1 then 0 else c.toggle_count + 1) := by
  cases op with
  | toggle =>
    simp only [applyOp, Option.some.injEq] at happ
    subst happ
    simp only [BlinkController.toggle, U64_MOD] at h ⊢
    constructor
    · intro hne
      omega
    · right
      split_ifs with hmax
      · omega
      · omega
  | set_delay d =>
    simp only [applyOp, BlinkController.set_delay, Option.map_eq_some'] at happ
    obtain ⟨nd, hnd, hc'⟩ := happ
    subst hc'
    exact ⟨fun _ => le_refl _, Or.inl rfl⟩

/-- Witness for C7: toggling at counter value 41 under the sample
configuration yields counter value 42. -/
theorem toggle_count_monotone_wrap_witness :
    ((⟨LedState.Off, 500, 41⟩ : BlinkController).toggle_count ≠ U64_MOD - 1 →
      (⟨LedState.Off, 500, 41⟩ : BlinkController).toggle_count ≤
        (⟨LedState.On, 500, 42⟩ : BlinkController).toggle_count) ∧
    ((⟨LedState.On, 500, 42⟩ : BlinkController).toggle_count =
        (⟨LedState.Off, 500, 41⟩ : BlinkController).toggle_count ∨
      (⟨LedState.On, 500, 42⟩ : BlinkController).toggle_count =
        if (⟨LedState.Off, 500, 41⟩ : BlinkController).toggle_count = U64_MOD - 1
        then 0
        else (⟨LedState.Off, 500, 41⟩ : BlinkController).toggle_count + 1) :=
  toggle_count_monotone_wrap cfg0 ⟨LedState.Off, 500, 41⟩
    ⟨LedState.On, 500, 42⟩ Op.toggle (by norm_num [U64_MOD]) rfl

/-- Claim C10: a successful set_delay leaves state and toggle_count
unchanged (only delay_ms may change), and toggle leaves delay_ms
unchanged. The read accessors state, delay_ms, toggle_count, is_on and
is_off are embedded as pure functions of the controller, which is exactly
the Rust shared-reference methods: they cannot modify any field. -/
theorem frame_conditions (cfg : Config) (c c' : BlinkController) (d : Nat)
    (hset : BlinkController.set_delay cfg c d = some c') :
    c'.state = c.state ∧ c'.toggle_count = c.toggle_count ∧
    (BlinkController.toggle c).2.delay_ms = c.delay_ms := by
  simp only [BlinkController.set_delay, Option.map_eq_some'] at hset
  obtain ⟨nd, hnd, hc'⟩ := hset
  subst hc'
  exact ⟨rfl, rfl, rfl⟩

/-- Witness for C10: setting delay 250 on a controller with delay 500 and
counter 7 under the sample configuration keeps state Off and counter 7. -/
theorem frame_conditions_witness :
    (⟨LedState.Off, 250, 7⟩ : BlinkController).state =
      (⟨LedState.Off, 500, 7⟩ : BlinkController).state ∧
    (⟨LedState.Off, 250, 7⟩ : BlinkController).toggle_count =
      (⟨LedState.Off, 500, 7⟩ : BlinkController).toggle_count ∧
    (BlinkController.toggle ⟨LedState.Off, 500, 7⟩).2.delay_ms =
      (⟨LedState.Off, 500, 7⟩ : BlinkController).delay_ms :=
  frame_conditions cfg0 ⟨LedState.Off, 500, 7⟩ ⟨LedState.Off, 250, 7⟩ 250 rfl
